import Mathlib

/-!
# Incident events uploader — verification of the ingestion/validation/dispatch pipeline

Shallow embedding of `app.py`: the Schema Validator (`process_csv`), the
Preview Renderer (`generate_html_response`), the upload handler
(`upload_file`), the Timestamp Normalizer (the per-record parsing loop in
`send_events`), and the Event Dispatcher (`send_events` / `cancel_upload`).

The multipart/temp-file/CSV-text plumbing is abstracted away: a request body
is modelled as its already-parsed row list (`List (List String)`), and the
external Amplitude collector is modelled as an oracle `track : AmpEvent → Bool`
telling whether a given `track` call succeeds or raises.
-/

namespace IncidentUploader

/-! ## Schema Validator (`process_csv`, app.py lines 78-107) -/

/-- The fixed required header, `REQUIRED_COLUMNS` in `process_csv`. -/
def REQUIRED_COLUMNS : List String :=
  ["user_id", "incident_name", "short_description", "datetime"]

/-- The validation-error taxonomy.  In the Python source each case is a
`ValueError` with a distinct message carrying the 1-indexed row number and,
for missing fields, the field name. -/
inductive CsvError where
  | emptyInput : CsvError
  | schemaMismatch : CsvError
  | rowArity (rowNum : Nat) : CsvError
  | missingField (rowNum : Nat) (field : String) : CsvError
deriving DecidableEq, Repr

/-- Whether an error is a `MissingField` error. -/
def CsvError.isMissing : CsvError → Bool
  | .missingField _ _ => true
  | _ => false

/-- `not s.strip()` in Python: the string is empty or all-whitespace. -/
def isBlank (s : String) : Bool :=
  s.data.all Char.isWhitespace

/-- The per-row checks of `process_csv` (lines 95-105): arity against the
header, then non-blankness of `user_id` (index 0), `incident_name` (index 1)
and `datetime` (index 3), in that order; `short_description` (index 2) is
never checked.  Returns the first violated rule, if any. -/
def rowError (ncols rowNum : Nat) (row : List String) : Option CsvError :=
  if row.length ≠ ncols then some (.rowArity rowNum)
  else if isBlank (row.getD 0 "") then some (.missingField rowNum "user_id")
  else if isBlank (row.getD 1 "") then some (.missingField rowNum "incident_name")
  else if isBlank (row.getD 3 "") then some (.missingField rowNum "datetime")
  else none

/-- The data-row loop of `process_csv`: rows are numbered from 2
(`enumerate(records[1:], start=2)`), and the first failing row aborts. -/
def rowsError (ncols rowNum : Nat) : List (List String) → Option CsvError
  | [] => none
  | r :: rs =>
    match rowError ncols rowNum r with
    | some e => some e
    | none => rowsError ncols (rowNum + 1) rs

/-- `process_csv` (lines 78-107): fewer than two rows is `EmptyInput`; a
header not exactly equal to `REQUIRED_COLUMNS` is `SchemaMismatch`; then the
per-row checks; on success the entire record list (header included) is
returned unchanged. -/
def process_csv (records : List (List String)) : Except CsvError (List (List String)) :=
  if records.length < 2 then .error .emptyInput
  else
    match records with
    | [] => .error .emptyInput
    | headers :: rows =>
      if headers ≠ REQUIRED_COLUMNS then .error .schemaMismatch
      else
        match rowsError headers.length 2 rows with
        | some e => .error e
        | none => .ok records

/-! ## Preview Renderer (`generate_html_response`, app.py lines 109-148) -/

/-- `html.escape` with `quote=True`, applied character by character (the
sequential `str.replace` calls it performs are equivalent to this). -/
def html_escape (text : String) : String :=
  text.data.foldl
    (fun acc c =>
      acc ++
        (if c = '&' then "&amp;"
         else if c = '<' then "&lt;"
         else if c = '>' then "&gt;"
         else if c = Char.ofNat 34 then "&quot;"
         else if c = Char.ofNat 39 then "&#x27;"
         else String.singleton c))
    ""

/-- The `<table>` fragment built from the header row and the preview rows
(lines 121-132). -/
def table_html (headers : List String) (previewRows : List (List String)) : String :=
  let head :=
    headers.foldl (fun a h => a ++ "<th>" ++ html_escape h ++ "</th>") ""
  let body :=
    previewRows.foldl
      (fun a r =>
        a ++ "<tr>" ++ r.foldl (fun b c => b ++ "<td>" ++ html_escape c ++ "</td>") "" ++ "</tr>")
      ""
  "<table>" ++ "<tr>" ++ head ++ "</tr>" ++ body ++ "</table>"

/-- The surrounding `preview-container` fragment (the f-string of lines
134-142), parameterised by the preview rows and the reported total. -/
def pageHtml (filename : String) (headers : List String)
    (previewRows : List (List String)) (totalRows : Nat) : String :=
  "\n    <div id=\"preview-container\">\n        <h2 class=\"preview-header\">Preview Results</h2>\n        <h3 class=\"preview-detail\">Preview is up to 5 rows</h3>\n        <p class=\"preview-filename\"><strong class=\"preview-bold\">Filename:</strong> "
    ++ html_escape filename
    ++ "</p>\n        <p class=\"preview-total-rows\"><strong class=\"preview-bold\">Total Rows:</strong> "
    ++ toString totalRows
    ++ "</p>\n        "
    ++ table_html headers previewRows
    ++ "\n    </div>\n    "

/-- `generate_html_response` (lines 109-143): the preview shows the first
five data rows (`rows[:5]`) while `Total Rows` reports `len(rows)`. -/
def generate_html_response (filename : String) (data : List (List String)) : String :=
  match data with
  | [] => "<p>No data found in the CSV file.</p>"
  | headers :: rows => pageHtml filename headers (rows.take 5) rows.length

/-! ## Upload handler (`upload_file`, app.py lines 39-76) -/

/-- `filename.lower().endswith('.csv')`: the last four characters, lowered,
are `.csv`. -/
def endsWithCsv (s : String) : Bool :=
  (s.data.map Char.toLower).reverse.take 4 = ['v', 's', 'c', '.']

/-- The generic validation-failure message returned by the broad
`except Exception` handler of `upload_file` (line 73). -/
def uploadFailureMsg : String :=
  "Failed to process the uploaded file. Please check your CSV file and follow the required column order from the sample data."

/-- `upload_file` (lines 39-76) acting on the `uploaded_data` global: an
empty filename or a non-`.csv` filename is rejected with 400 before anything
is read; otherwise `process_csv` runs and, on success, its result is assigned
to the global (`uploaded_data = data`) and the preview is returned with 200.
Any `process_csv` failure is caught by the broad `except Exception` handler,
which leaves the global untouched and returns the generic message with 500.
Returns the new store value together with the `(body, status)` response. -/
def upload_file (store : List (List String)) (filename : String)
    (records : List (List String)) : List (List String) × String × Nat :=
  if filename = "" then (store, "No selected file.", 400)
  else if ¬ endsWithCsv filename then (store, "Please upload a valid CSV file.", 400)
  else
    match process_csv records with
    | .ok data => (data, generate_html_response filename data, 200)
    | .error _ => (store, uploadFailureMsg, 500)

/-! ## Timestamp Normalizer (the parsing loop in `send_events`, app.py lines 181-209)

`send_events` tries, in order, the strptime formats
`"%m/%d/%Y %H:%M"`, `"%Y-%m-%d %H:%M:%S.%f %Z"`, `"%Y-%m-%d %H:%M:%S %Z"`;
the first that matches the whole string wins.  The parsers below are
character-level transcriptions of the regexes CPython's `_strptime` compiles
for these formats: numeric fields are maximal digit runs of bounded width and
bounded value, a literal space matches one-or-more whitespace characters, and
the whole input must be consumed.  Day-of-month validity against the month
(which CPython checks in the `datetime` constructor, whose `ValueError` is
caught by the same `except` as a regex mismatch) is folded into each parser.
The `%Z` token is modelled as the literal zone names `UTC` / `GMT`, the
portable core of what `_strptime` accepts. -/

/-- A parsed naive wall-clock value (the fields of the `datetime` object). -/
structure WallClock where
  year : Nat
  month : Nat
  day : Nat
  hour : Nat
  minute : Nat
  second : Nat
  micro : Nat
deriving DecidableEq, Repr

/-- Split off the maximal leading run of decimal digits. -/
def takeDigits : List Char → List Char × List Char
  | [] => ([], [])
  | c :: cs =>
    if c.isDigit then
      let (ds, r) := takeDigits cs
      (c :: ds, r)
    else ([], c :: cs)

/-- Numeric value of a digit run. -/
def digitsVal (ds : List Char) : Nat :=
  ds.foldl (fun a c => a * 10 + (c.toNat - 48)) 0

/-- Read a numeric field: a maximal digit run whose length lies in
`[minLen, maxLen]` and whose value lies in `[lo, hi]`. -/
def readNum (lo hi minLen maxLen : Nat) (cs : List Char) : Option (Nat × List Char) :=
  let (ds, r) := takeDigits cs
  if minLen ≤ ds.length ∧ ds.length ≤ maxLen then
    let v := digitsVal ds
    if lo ≤ v ∧ v ≤ hi then some (v, r) else none
  else none

/-- Consume one expected literal character. -/
def expect (c : Char) : List Char → Option (List Char)
  | [] => none
  | x :: xs => if x = c then some xs else none

/-- A literal space in a strptime format matches one-or-more whitespace. -/
def skipWs : List Char → Option (List Char)
  | [] => none
  | c :: cs => if c.isWhitespace then some (cs.dropWhile Char.isWhitespace) else none

/-- The `%Z` zone token, modelled as the literal names `UTC` / `GMT`. -/
def expectZ (cs : List Char) : Option (List Char) :=
  if cs.take 3 = ['U', 'T', 'C'] ∨ cs.take 3 = ['G', 'M', 'T'] then some (cs.drop 3)
  else none

/-- The `%f` token: one to six fractional-second digits, scaled to
microseconds by right-padding with zeros. -/
def readFrac (cs : List Char) : Option (Nat × List Char) :=
  let (ds, r) := takeDigits cs
  if 1 ≤ ds.length ∧ ds.length ≤ 6 then
    some (digitsVal ds * 10 ^ (6 - ds.length), r)
  else none

/-- Gregorian leap year. -/
def isLeap (y : Nat) : Bool :=
  y % 4 = 0 && (y % 100 ≠ 0 || y % 400 = 0)

/-- Length of a month, as the `datetime` constructor enforces it. -/
def daysInMonth (y m : Nat) : Nat :=
  if m = 2 then (if isLeap y then 29 else 28)
  else if m = 4 ∨ m = 6 ∨ m = 9 ∨ m = 11 then 30
  else 31

/-- `"%m/%d/%Y %H:%M"`, the first format tried. -/
def parseFmt1 (cs : List Char) : Option WallClock := do
  let (mo, cs) ← readNum 1 12 1 2 cs
  let cs ← expect '/' cs
  let (d, cs) ← readNum 1 31 1 2 cs
  let cs ← expect '/' cs
  let (y, cs) ← readNum 1 9999 4 4 cs
  let cs ← skipWs cs
  let (h, cs) ← readNum 0 23 1 2 cs
  let cs ← expect ':' cs
  let (mi, cs) ← readNum 0 59 1 2 cs
  if cs = [] ∧ d ≤ daysInMonth y mo then pure ⟨y, mo, d, h, mi, 0, 0⟩ else none

/-- The `"%Y-%m-%d %H:%M:%S"` prefix shared by the second and third formats. -/
def parseYMDHMS (cs : List Char) : Option (Nat × Nat × Nat × Nat × Nat × Nat × List Char) := do
  let (y, cs) ← readNum 1 9999 4 4 cs
  let cs ← expect '-' cs
  let (mo, cs) ← readNum 1 12 1 2 cs
  let cs ← expect '-' cs
  let (d, cs) ← readNum 1 31 1 2 cs
  let cs ← skipWs cs
  let (h, cs) ← readNum 0 23 1 2 cs
  let cs ← expect ':' cs
  let (mi, cs) ← readNum 0 59 1 2 cs
  let cs ← expect ':' cs
  let (s, cs) ← readNum 0 59 1 2 cs
  pure (y, mo, d, h, mi, s, cs)

/-- `"%Y-%m-%d %H:%M:%S.%f %Z"`, the second format tried. -/
def parseFmt2 (cs : List Char) : Option WallClock := do
  let (y, mo, d, h, mi, s, cs) ← parseYMDHMS cs
  let cs ← expect '.' cs
  let (f, cs) ← readFrac cs
  let cs ← skipWs cs
  let cs ← expectZ cs
  if cs = [] ∧ d ≤ daysInMonth y mo then pure ⟨y, mo, d, h, mi, s, f⟩ else none

/-- `"%Y-%m-%d %H:%M:%S %Z"`, the third format tried. -/
def parseFmt3 (cs : List Char) : Option WallClock := do
  let (y, mo, d, h, mi, s, cs) ← parseYMDHMS cs
  let cs ← skipWs cs
  let cs ← expectZ cs
  if cs = [] ∧ d ≤ daysInMonth y mo then pure ⟨y, mo, d, h, mi, s, 0⟩ else none

/-- The format loop: first successful format wins, in source order. -/
def firstMatch (cs : List Char) : Option WallClock :=
  match parseFmt1 cs with
  | some wc => some wc
  | none =>
    match parseFmt2 cs with
    | some wc => some wc
    | none => parseFmt3 cs

/-- The three supported strptime formats in their order of attempt. -/
def supportedFormats : List (List Char → Option WallClock) :=
  [parseFmt1, parseFmt2, parseFmt3]

/-- `'UTC' in timestamp_str`: the substring `UTC` occurs somewhere. -/
def hasUTC : List Char → Bool
  | [] => false
  | c :: rest => (c = 'U' && rest.take 2 = ['T', 'C']) || hasUTC rest

/-- Proleptic-Gregorian ordinal day number (`date.toordinal`):
`0001-01-01` is day 1. -/
def toOrdinal (y m d : Nat) : Nat :=
  let py := y - 1
  365 * py + py / 4 - py / 100 + py / 400
    + (List.range (m - 1)).foldl (fun a i => a + daysInMonth y (i + 1)) 0
    + d

/-- `int(dt.timestamp() * 1000)` for a UTC-labelled `datetime`: epoch
milliseconds of the wall-clock value read as UTC (1970-01-01 has ordinal
719163). -/
def epochMs (wc : WallClock) : Int :=
  ((toOrdinal wc.year wc.month wc.day : Int) - 719163) * 86400000
    + (wc.hour * 3600000 + wc.minute * 60000 + wc.second * 1000 + wc.micro / 1000 : Nat)

/-- The whole per-record timestamp step of `send_events` (lines 186-209):
try the formats in order and convert the winner to epoch milliseconds.

The source distinguishes `'UTC' in timestamp_str` only to decide between
`replace(tzinfo=pytz.UTC)` (formats ending in `%Z`) and
`pytz.utc.localize(dt)` (otherwise); both label the parsed wall clock as UTC
without converting it, so every reachable branch yields `epochMs` of the
parsed wall clock.  The one branch that would differ — the string contains
`UTC` yet the first, `%Z`-free format matched, leaving `dt` naive — is
impossible, because a first-format match consists only of digits, `/`, `:`
and whitespace (`parseFmt1_hasUTC_false` below). -/
def normalizeTimestamp (s : String) : Option Int :=
  (firstMatch s.data).map epochMs

/-! ## Event Dispatcher (`send_events` / `cancel_upload`, app.py lines 150-254) -/

/-- The `BaseEvent` constructed per record (lines 212-221). -/
structure AmpEvent where
  user_id : String
  event_type : String
  name : String
  description : String
  original_timestamp : String
  time : Int
deriving DecidableEq, Repr

/-- One iteration of the dispatch loop (lines 174-239) on a single record:
extract the four fields at the header-derived indices (an out-of-range index
is an `IndexError`, caught as a failure before any event exists), normalize
the timestamp (failure raises before any event exists), then build the event
and hand it to the collector, whose success is given by the `track` oracle.
Returns the success flag and the event passed to `track`, if any. -/
def rowOutcome (track : AmpEvent → Bool) (ui ii di ti : Nat)
    (record : List String) : Bool × Option AmpEvent :=
  match record.get? ui, record.get? ii, record.get? di, record.get? ti with
  | some u, some inc, some desc, some ts =>
    match normalizeTimestamp ts with
    | some t =>
      let ev : AmpEvent := ⟨u, "Incident", inc, desc, ts, t⟩
      (track ev, some ev)
    | none => (false, none)
  | _, _, _, _ => (false, none)

/-- The dispatch loop over all data rows, accumulating
`(successful_events, failed_events)` and the list of collector calls in row
order. -/
def processRows (track : AmpEvent → Bool) (ui ii di ti : Nat) :
    List (List String) → Nat × Nat × List AmpEvent
  | [] => (0, 0, [])
  | r :: rs =>
    let (ok, ev) := rowOutcome track ui ii di ti r
    let (s, f, calls) := processRows track ui ii di ti rs
    (if ok then s + 1 else s, if ok then f else f + 1, ev.toList ++ calls)

/-- The observable outcome of one `send_events` request: the final counters,
every event handed to the collector, and the `(body, status)` response. -/
structure SendOutcome where
  successful : Nat
  failed : Nat
  calls : List AmpEvent
  body : String
  status : Nat
deriving DecidableEq, Repr

/-- `send_events` (lines 156-254) reading the `uploaded_data` global:
fewer than two stored rows short-circuits to `"No data to send."` / 400
before any header lookup, event construction or collector call; otherwise the
four column positions are resolved by name from the header (`headers.index`;
a missing name raises out of the handler, which the web layer turns into a
bare 500), every data row is processed by the loop, and the response status
is 207 whenever any row failed (partial or total) and 200 otherwise. -/
def send_events (track : AmpEvent → Bool) (store : List (List String)) : SendOutcome :=
  match store with
  | headers :: r1 :: rest =>
    match headers.findIdx? (· == "user_id"), headers.findIdx? (· == "incident_name"),
        headers.findIdx? (· == "short_description"), headers.findIdx? (· == "datetime") with
    | some ui, some ii, some di, some ti =>
      let (s, f, calls) := processRows track ui ii di ti (r1 :: rest)
      if 0 < f ∧ 0 < s then
        ⟨s, f, calls,
          "Partial success. Sent " ++ toString s ++ " events, " ++ toString f
            ++ " events failed to send.", 207⟩
      else if 0 < f then
        ⟨s, f, calls, "Failed to send " ++ toString f ++ " events.", 207⟩
      else
        ⟨s, f, calls, "Successfully sent " ++ toString s ++ " events.", 200⟩
    | _, _, _, _ => ⟨0, 0, [], "Internal Server Error", 500⟩
  | _ => ⟨0, 0, [], "No data to send.", 400⟩

/-- `cancel_upload` (lines 150-154): empties the `uploaded_data` global and
answers 200.  Returns the new store value and the response. -/
def cancel_upload (_store : List (List String)) : List (List String) × String × Nat :=
  ([], "Upload cancelled.", 200)

/-- The `/send-events` route as a state transformer on the `uploaded_data`
global: the handler body only ever reads the global (there is no assignment
to it anywhere in `send_events`), so the store component passes through. -/
def send_events_route (track : AmpEvent → Bool) (store : List (List String)) :
    List (List String) × SendOutcome :=
  (store, send_events track store)

/-! ## Helper lemmas -/

theorem processRows_counts (track : AmpEvent → Bool) (ui ii di ti : Nat)
    (rows : List (List String)) :
    (processRows track ui ii di ti rows).1
        = rows.countP (fun r => (rowOutcome track ui ii di ti r).1) ∧
      (processRows track ui ii di ti rows).2.1
        = rows.countP (fun r => !(rowOutcome track ui ii di ti r).1) ∧
      (processRows track ui ii di ti rows).1 + (processRows track ui ii di ti rows).2.1
        = rows.length := by
  induction rows with
  | nil => simp [processRows]
  | cons r rs ih =>
    rcases ih with ⟨ihs, ihf, ihn⟩
    by_cases hr : (rowOutcome track ui ii di ti r).1
    · simp [processRows, hr, List.countP_cons, ihs, ihf]
      omega
    · simp only [Bool.not_eq_true] at hr
      simp [processRows, hr, List.countP_cons, ihs, ihf]
      omega

theorem takeDigits_append (cs : List Char) :
    ∀ {ds r : List Char}, takeDigits cs = (ds, r) →
      cs = ds ++ r ∧ ∀ c ∈ ds, c.isDigit = true := by
  induction cs with
  | nil =>
    intro ds r h
    simp [takeDigits] at h
    simp [h.1, h.2]
  | cons c cs ih =>
    intro ds r h
    by_cases hc : c.isDigit
    · rcases hcs : takeDigits cs with ⟨ds', r'⟩
      rw [takeDigits, hcs] at h
      simp [hc] at h
      rcases ih hcs with ⟨hsplit, hdig⟩
      subst hsplit
      constructor
      · rw [← h.1, ← h.2]; rfl
      · intro x hx
        rw [← h.1] at hx
        rcases List.mem_cons.mp hx with rfl | hx
        · exact hc
        · exact hdig x hx
    · rw [takeDigits] at h
      simp [hc] at h
      rcases h with ⟨h1, h2⟩
      subst h1; subst h2
      simp

theorem readNum_some_spec {lo hi a b : Nat} {cs r : List Char} {v : Nat}
    (h : readNum lo hi a b cs = some (v, r)) :
    a ≤ (takeDigits cs).1.length ∧ (takeDigits cs).1.length ≤ b ∧
      (∃ ds, cs = ds ++ r ∧ ∀ c ∈ ds, c.isDigit = true) := by
  rcases hcs : takeDigits cs with ⟨ds, rest⟩
  rw [readNum, hcs] at h
  simp only at h
  split at h
  · split at h
    · rcases Option.some.inj h with h'
      rcases Prod.mk.injEq .. ▸ h' with ⟨hv, hr⟩
      rcases takeDigits_append cs hcs with ⟨hsplit, hdig⟩
      refine ⟨?_, ?_, ds, ?_, hdig⟩ <;> simp_all [hcs]
    · exact absurd h (by simp)
  · exact absurd h (by simp)

theorem readNum_none_of_len {b : Nat} (lo hi a : Nat) {cs : List Char}
    (h : b < (takeDigits cs).1.length) : readNum lo hi a b cs = none := by
  rcases hcs : takeDigits cs with ⟨ds, rest⟩
  rw [readNum, hcs]
  rw [hcs] at h
  simp only at h ⊢
  split
  · omega
  · rfl

theorem expect_some {c : Char} {cs r : List Char} (h : expect c cs = some r) :
    cs = c :: r := by
  cases cs with
  | nil => simp [expect] at h
  | cons x xs =>
    rw [expect] at h
    split at h
    · simp_all
    · simp at h

theorem skipWs_some_head {cs r : List Char} (h : skipWs cs = some r) :
    ∃ c cs', cs = c :: cs' ∧ c.isWhitespace = true := by
  cases cs with
  | nil => simp [skipWs] at h
  | cons c cs' =>
    rw [skipWs] at h
    split at h
    · exact ⟨c, cs', rfl, by assumption⟩
    · simp at h

theorem skipWs_decomp {cs r : List Char} (h : skipWs cs = some r) :
    ∃ ws, cs = ws ++ r ∧ ∀ c ∈ ws, c.isWhitespace = true := by
  cases cs with
  | nil => simp [skipWs] at h
  | cons c cs' =>
    rw [skipWs] at h
    split at h
    · refine ⟨c :: cs'.takeWhile Char.isWhitespace, ?_, ?_⟩
      · rcases Option.some.inj h with rfl
        simp [List.takeWhile_append_dropWhile]
      · intro x hx
        rcases List.mem_cons.mp hx with rfl | hx
        · assumption
        · exact List.mem_takeWhile_imp hx
    · simp at h

theorem parseYMDHMS_year4 {cs : List Char}
    {out : Nat × Nat × Nat × Nat × Nat × Nat × List Char}
    (h : parseYMDHMS cs = some out) : (takeDigits cs).1.length = 4 := by
  simp only [parseYMDHMS, Option.bind_eq_bind, Option.bind_eq_some] at h
  obtain ⟨⟨y, cs1⟩, hy, -⟩ := h
  rcases readNum_some_spec hy with ⟨h1, h2, -⟩
  omega

theorem parseFmt1_none_of_year4 {cs : List Char}
    (h4 : (takeDigits cs).1.length = 4) : parseFmt1 cs = none := by
  have h : readNum 1 12 1 2 cs = none := readNum_none_of_len 1 12 1 (by omega)
  simp [parseFmt1, h]

theorem parseFmt2_ymdhms {cs : List Char} {wc : WallClock}
    (h : parseFmt2 cs = some wc) :
    ∃ out, parseYMDHMS cs = some out := by
  simp only [parseFmt2, Option.bind_eq_bind, Option.bind_eq_some] at h
  obtain ⟨out, hout, -⟩ := h
  exact ⟨out, hout⟩

theorem parseFmt3_ymdhms {cs : List Char} {wc : WallClock}
    (h : parseFmt3 cs = some wc) :
    ∃ out, parseYMDHMS cs = some out := by
  simp only [parseFmt3, Option.bind_eq_bind, Option.bind_eq_some] at h
  obtain ⟨out, hout, -⟩ := h
  exact ⟨out, hout⟩

theorem parseFmt1_none_of_fmt2 {cs : List Char} {wc : WallClock}
    (h : parseFmt2 cs = some wc) : parseFmt1 cs = none := by
  obtain ⟨out, hout⟩ := parseFmt2_ymdhms h
  exact parseFmt1_none_of_year4 (parseYMDHMS_year4 hout)

theorem parseFmt1_none_of_fmt3 {cs : List Char} {wc : WallClock}
    (h : parseFmt3 cs = some wc) : parseFmt1 cs = none := by
  obtain ⟨out, hout⟩ := parseFmt3_ymdhms h
  exact parseFmt1_none_of_year4 (parseYMDHMS_year4 hout)

theorem parseFmt2_none_of_fmt3 {cs : List Char} {wc : WallClock}
    (h : parseFmt3 cs = some wc) : parseFmt2 cs = none := by
  simp only [parseFmt3, Option.bind_eq_bind, Option.bind_eq_some] at h
  obtain ⟨⟨y, mo, d, hh, mi, s, rest⟩, hp, ⟨rest2, hws, -⟩⟩ := h
  obtain ⟨c, cs', rfl, hcws⟩ := skipWs_some_head hws
  have hc : ¬ (c = '.') := by
    intro e
    subst e
    exact absurd hcws (by decide)
  simp [parseFmt2, hp, expect, hc]

theorem normalize_of_fmt1 {s : String} {wc : WallClock}
    (h : parseFmt1 s.data = some wc) :
    normalizeTimestamp s = some (epochMs wc) := by
  simp [normalizeTimestamp, firstMatch, h]

theorem normalize_of_fmt2 {s : String} {wc : WallClock}
    (h : parseFmt2 s.data = some wc) :
    normalizeTimestamp s = some (epochMs wc) := by
  have h1 := parseFmt1_none_of_fmt2 h
  simp [normalizeTimestamp, firstMatch, h1, h]

theorem normalize_of_fmt3 {s : String} {wc : WallClock}
    (h : parseFmt3 s.data = some wc) :
    normalizeTimestamp s = some (epochMs wc) := by
  have h1 := parseFmt1_none_of_fmt3 h
  have h2 := parseFmt2_none_of_fmt3 h
  simp [normalizeTimestamp, firstMatch, h1, h2, h]

theorem anyFormat_normalize {p : List Char → Option WallClock}
    (hp : p ∈ supportedFormats) {s : String} {wc : WallClock}
    (h : p s.data = some wc) :
    normalizeTimestamp s = some (epochMs wc) := by
  simp only [supportedFormats, List.mem_cons, List.not_mem_nil, or_false] at hp
  rcases hp with rfl | rfl | rfl
  · exact normalize_of_fmt1 h
  · exact normalize_of_fmt2 h
  · exact normalize_of_fmt3 h

theorem parseFmt1_chars {cs : List Char} {wc : WallClock}
    (h : parseFmt1 cs = some wc) :
    ∀ c ∈ cs, c.isDigit = true ∨ c = '/' ∨ c = ':' ∨ c.isWhitespace = true := by
  rw [parseFmt1] at h
  obtain ⟨⟨mo, cs1⟩, h1, h⟩ := Option.bind_eq_some.mp h
  obtain ⟨cs2, h2, h⟩ := Option.bind_eq_some.mp h
  obtain ⟨⟨d, cs3⟩, h3, h⟩ := Option.bind_eq_some.mp h
  obtain ⟨cs4, h4, h⟩ := Option.bind_eq_some.mp h
  obtain ⟨⟨y, cs5⟩, h5, h⟩ := Option.bind_eq_some.mp h
  obtain ⟨cs6, h6, h⟩ := Option.bind_eq_some.mp h
  obtain ⟨⟨hh, cs7⟩, h7, h⟩ := Option.bind_eq_some.mp h
  obtain ⟨cs8, h8, h⟩ := Option.bind_eq_some.mp h
  obtain ⟨⟨mi, cs9⟩, h9, h⟩ := Option.bind_eq_some.mp h
  have hcs9 : cs9 = [] := by
    by_cases hcnd : cs9 = [] ∧ d ≤ daysInMonth y mo
    · exact hcnd.1
    · simp only [if_neg hcnd] at h
      exact absurd h (by simp)
  rcases readNum_some_spec h1 with ⟨-, -, ds1, e1, hd1⟩
  have e2 := expect_some h2
  rcases readNum_some_spec h3 with ⟨-, -, ds2, e3, hd2⟩
  have e4 := expect_some h4
  rcases readNum_some_spec h5 with ⟨-, -, ds3, e5, hd3⟩
  rcases skipWs_decomp h6 with ⟨ws, e6, hw⟩
  rcases readNum_some_spec h7 with ⟨-, -, ds4, e7, hd4⟩
  have e8 := expect_some h8
  rcases readNum_some_spec h9 with ⟨-, -, ds5, e9, hd5⟩
  subst e1 e2 e3 e4 e5 e6 e7 e8 e9 hcs9
  intro c hc
  simp only [List.mem_append, List.mem_cons, List.not_mem_nil, or_false] at hc
  rcases hc with hc | rfl | hc | rfl | hc | hc | hc | rfl | hc
  · exact Or.inl (hd1 c hc)
  · exact Or.inr (Or.inl rfl)
  · exact Or.inl (hd2 c hc)
  · exact Or.inr (Or.inl rfl)
  · exact Or.inl (hd3 c hc)
  · exact Or.inr (Or.inr (Or.inr (hw c hc)))
  · exact Or.inl (hd4 c hc)
  · exact Or.inr (Or.inr (Or.inl rfl))
  · exact Or.inl (hd5 c hc)

theorem hasUTC_eq_false {cs : List Char} (h : ∀ c ∈ cs, ¬ c = 'U') :
    hasUTC cs = false := by
  induction cs with
  | nil => rfl
  | cons c rest ih =>
    rw [hasUTC]
    have hcU : ¬ c = 'U' := h c (List.mem_cons_self c rest)
    simp [hcU, ih (fun x hx => h x (List.mem_cons_of_mem c hx))]

/-- A string matched by the first format consists only of digits, `/`, `:`
and whitespace, so it never contains the `UTC` marker: the source's
`'UTC' in timestamp_str` branch can never leave the first-format `datetime`
naive. -/
theorem parseFmt1_hasUTC_false {cs : List Char} {wc : WallClock}
    (h : parseFmt1 cs = some wc) : hasUTC cs = false := by
  apply hasUTC_eq_false
  intro c hc e
  rcases parseFmt1_chars h c hc with hd | h' | h' | hw
  · rw [e] at hd; exact absurd hd (by decide)
  · rw [e] at h'; exact absurd h' (by decide)
  · rw [e] at h'; exact absurd h' (by decide)
  · rw [e] at hw; exact absurd hw (by decide)

theorem process_csv_ok_eq {records data : List (List String)}
    (h : process_csv records = .ok data) : data = records := by
  unfold process_csv at h
  split at h
  · exact absurd h (by simp)
  · split at h
    · exact absurd h (by simp)
    · split at h
      · exact absurd h (by simp)
      · split at h
        · exact absurd h (by simp)
        · exact (Except.ok.inj h).symm

/-! ## Claims -/

/-- C1, counterexample: the normalizer has no append-`00:00` step — the
date-only string `"03/15/2024"` matches none of the supported formats and
fails, while `"03/15/2024 00:00"` parses, so the two do not normalize
identically. -/
theorem c1_counterexample :
    normalizeTimestamp "03/15/2024" = none ∧
      normalizeTimestamp "03/15/2024 00:00" = some 1710460800000 ∧
      ¬ normalizeTimestamp "03/15/2024" = normalizeTimestamp "03/15/2024 00:00" := by
  refine ⟨by decide, by decide, by decide⟩

/-- C1, amended: a date-only `MM/DD/YYYY` record such as `"03/15/2024"` is
not completed to midnight; its normalization fails (`UnparsableTimestamp`,
so the record counts as failed), whereas the same date with an explicit
`" 00:00"` suffix normalizes to midnight UTC of that day. -/
theorem c1_amended :
    normalizeTimestamp "03/15/2024" = none ∧
      normalizeTimestamp "03/15/2024 00:00" = some (epochMs ⟨2024, 3, 15, 0, 0, 0, 0⟩) := by
  refine ⟨by decide, by decide⟩

/-- C2, counterexample: an upload whose filename passes the checks but whose
body fails structural validation (here: empty input) is answered with
HTTP 500, not 400. -/
theorem c2_counterexample :
    (upload_file [] "data.csv" []).2.2 = 500 ∧
      ¬ (upload_file [] "data.csv" []).2.2 = 400 := by
  refine ⟨by decide, by decide⟩

/-- C2, amended: for every upload whose file passes the filename checks but
fails structural validation, `/upload` returns the generic plain-text error
with HTTP 500 — the same status as unexpected failures — because
`process_csv`'s `ValueError`s are caught by the broad `except Exception`
handler; HTTP 400 is produced only by the file-presence and filename
checks. -/
theorem c2_amended (store records : List (List String)) (fn : String) (e : CsvError)
    (h1 : ¬ fn = "") (h2 : endsWithCsv fn = true)
    (h3 : process_csv records = .error e) :
    upload_file store fn records = (store, uploadFailureMsg, 500) := by
  simp [upload_file, h1, h2, h3]

/-- C2, witness for the amended theorem. -/
theorem c2_witness :
    upload_file [["x"]] "data.csv" [] = ([["x"]], uploadFailureMsg, 500) :=
  c2_amended [["x"]] [] "data.csv" .emptyInput (by decide) (by decide) rfl

/-- C4: any raw table with at least one data row whose header row is not
element-for-element equal to `[user_id, incident_name, short_description,
datetime]` — renamed, reordered, extra or missing columns alike — fails with
`SchemaMismatch`; the comparison is list equality, hence order-sensitive. -/
theorem c4_schema_mismatch (records : List (List String)) (hdr : List String)
    (hlen : 2 ≤ records.length) (hhd : records.head? = some hdr)
    (hne : ¬ hdr = REQUIRED_COLUMNS) :
    process_csv records = .error .schemaMismatch := by
  cases records with
  | nil => simp at hhd
  | cons r t =>
    have hr : r = hdr := by simpa using hhd
    subst hr
    simp only [List.length_cons] at hlen
    simp [process_csv, hne]
    omega

/-- C4, witness: a mere reordering of the required column names (same set of
names) is rejected with `SchemaMismatch`. -/
theorem c4_witness :
    process_csv
        [["incident_name", "user_id", "short_description", "datetime"],
         ["a", "b", "c", "d"]]
      = .error .schemaMismatch :=
  c4_schema_mismatch _ _ (by decide) rfl (by decide)

/-- C5: a data row of the right arity passes exactly when none of `user_id`,
`incident_name`, `datetime` is empty or all-whitespace — `short_description`
is exempt (it is quantified freely and never examined) — and every failure
such a row can produce is a `MissingField` error. -/
theorem c5_missing_field (u i sd d : String) (n : Nat) :
    (rowError 4 n [u, i, sd, d] = none ↔
        isBlank u = false ∧ isBlank i = false ∧ isBlank d = false) ∧
      ∀ e, rowError 4 n [u, i, sd, d] = some e → e.isMissing = true := by
  constructor
  · cases hu : isBlank u <;> cases hi : isBlank i <;> cases hd2 : isBlank d <;>
      simp [rowError, hu, hi, hd2]
  · intro e he
    cases hu : isBlank u <;> cases hi : isBlank i <;> cases hd2 : isBlank d <;>
        simp [rowError, hu, hi, hd2] at he <;>
      simp [← he, CsvError.isMissing]

/-- C5, witness: an empty `short_description` alone is accepted, while the
otherwise-identical row with empty `user_id` is rejected. -/
theorem c5_witness :
    rowError 4 2 ["alice", "incident", "", "03/15/2024 13:30"] = none ∧
      ¬ rowError 4 2 ["", "incident", "", "03/15/2024 13:30"] = none := by
  constructor
  · exact (c5_missing_field "alice" "incident" "" "03/15/2024 13:30" 2).1.mpr (by decide)
  · intro hnone
    have hbl := (c5_missing_field "" "incident" "" "03/15/2024 13:30" 2).1.mp hnone
    exact absurd hbl.1 (by decide)

/-- C6: dispatching against a store with fewer than two rows (empty, or
header only) yields the no-dataset outcome — body `"No data to send."`,
status 400, zero counters and an empty collector-call list, so no event is
built and no network call made — and running `send_events` right after
`cancel_upload` is literally running it on the empty store. -/
theorem c6_no_dataset (track : AmpEvent → Bool) (store : List (List String)) :
    (store.length < 2 →
        send_events track store = ⟨0, 0, [], "No data to send.", 400⟩) ∧
      send_events track (cancel_upload store).1 = send_events track [] := by
  constructor
  · intro h
    cases store with
    | nil => rfl
    | cons a t =>
      cases t with
      | nil => rfl
      | cons b t' =>
        simp only [List.length_cons] at h
        omega
  · rfl

/-- C6, witness. -/
theorem c6_witness :
    send_events (fun _ => true) [] = ⟨0, 0, [], "No data to send.", 400⟩ ∧
      send_events (fun _ => true) (cancel_upload [["a"], ["b"], ["c"]]).1
        = send_events (fun _ => true) [] :=
  ⟨(c6_no_dataset (fun _ => true) []).1 (by decide),
   (c6_no_dataset (fun _ => true) [["a"], ["b"], ["c"]]).2⟩

/-- C7: the upload is atomic with respect to the dataset store — on
successful validation the store becomes exactly the whole uploaded table
(`process_csv` returns its input unchanged, header included), and on any
validation failure the store keeps its previous value. -/
theorem c7_upload_atomic (store records : List (List String)) (fn : String)
    (h1 : ¬ fn = "") (h2 : endsWithCsv fn = true) :
    (∀ data, process_csv records = .ok data →
        data = records ∧ (upload_file store fn records).1 = records) ∧
      ∀ e, process_csv records = .error e → (upload_file store fn records).1 = store := by
  constructor
  · intro data hok
    refine ⟨process_csv_ok_eq hok, ?_⟩
    simp [upload_file, h1, h2, hok]
    exact process_csv_ok_eq hok
  · intro e herr
    simp [upload_file, h1, h2, herr]

/-- C7, witness: a valid table replaces the previous store; an invalid one
leaves it untouched. -/
theorem c7_witness :
    (upload_file [["old"]] "a.csv"
        [["user_id", "incident_name", "short_description", "datetime"],
         ["u1", "inc", "", "03/15/2024 13:30"]]).1
      = [["user_id", "incident_name", "short_description", "datetime"],
         ["u1", "inc", "", "03/15/2024 13:30"]] ∧
      (upload_file [["old"]] "a.csv" [["bad"]]).1 = [["old"]] := by
  constructor
  · exact ((c7_upload_atomic [["old"]]
        [["user_id", "incident_name", "short_description", "datetime"],
         ["u1", "inc", "", "03/15/2024 13:30"]] "a.csv" (by decide) (by decide)).1
        [["user_id", "incident_name", "short_description", "datetime"],
         ["u1", "inc", "", "03/15/2024 13:30"]] rfl).2
  · exact (c7_upload_atomic [["old"]] [["bad"]] "a.csv" (by decide) (by decide)).2
      .emptyInput rfl

/-- C3: dispatching a stored dataset with `n` data rows of which exactly `k`
fail (unparsable timestamp or collector failure, as counted per row by
`rowOutcome`) processes every row: the outcome reports
`successful = n - k`, `failed = k`, the counts sum to `n`, and the HTTP
status is 200 when `k = 0` and 207 when `k > 0` (partial and all-failed
alike). -/
theorem c3_dispatch_accounting (track : AmpEvent → Bool) (rows : List (List String))
    (n k : Nat) (hrows : ¬ rows = []) (hn : n = rows.length)
    (hk : k = rows.countP (fun r => !(rowOutcome track 0 1 2 3 r).1)) :
    (send_events track (REQUIRED_COLUMNS :: rows)).successful = n - k ∧
      (send_events track (REQUIRED_COLUMNS :: rows)).failed = k ∧
      (send_events track (REQUIRED_COLUMNS :: rows)).successful
          + (send_events track (REQUIRED_COLUMNS :: rows)).failed = n ∧
      (send_events track (REQUIRED_COLUMNS :: rows)).status
        = (if k = 0 then 200 else 207) := by
  cases rows with
  | nil => exact absurd rfl hrows
  | cons r rs =>
    have e1 : REQUIRED_COLUMNS.findIdx? (· == "user_id") = some 0 := rfl
    have e2 : REQUIRED_COLUMNS.findIdx? (· == "incident_name") = some 1 := rfl
    have e3 : REQUIRED_COLUMNS.findIdx? (· == "short_description") = some 2 := rfl
    have e4 : REQUIRED_COLUMNS.findIdx? (· == "datetime") = some 3 := rfl
    rcases hpr : processRows track 0 1 2 3 (r :: rs) with ⟨s, f, calls⟩
    have hcounts := processRows_counts track 0 1 2 3 (r :: rs)
    rw [hpr] at hcounts
    obtain ⟨hs_eq, hf_eq, hsum⟩ := hcounts
    have hkf : k = f := by rw [hk, ← hf_eq]
    have hnn : n = s + f := by rw [hn, ← hsum]
    by_cases hf0 : 0 < f
    · by_cases hs0 : 0 < s
      · simp only [send_events, e1, e2, e3, e4, hpr, if_pos (And.intro hf0 hs0)]
        refine ⟨by omega, by omega, by omega, ?_⟩
        rw [if_neg (by omega)]
      · simp only [send_events, e1, e2, e3, e4, hpr,
          if_neg (fun hc : 0 < f ∧ 0 < s => hs0 hc.2), if_pos hf0]
        refine ⟨by omega, by omega, by omega, ?_⟩
        rw [if_neg (by omega)]
    · simp only [send_events, e1, e2, e3, e4, hpr,
        if_neg (fun hc : 0 < f ∧ 0 < s => hf0 hc.1), if_neg hf0]
      refine ⟨by omega, by omega, by omega, ?_⟩
      rw [if_pos (by omega)]

/-- C3, witness: 2 unparsable timestamps out of 5 rows give
`successful = 3`, `failed = 2`, counts summing to 5, and status 207. -/
theorem c3_witness :
    (send_events (fun _ => true) (REQUIRED_COLUMNS ::
        [["u1", "a", "", "03/15/2024 13:30"],
         ["u2", "b", "", "bad"],
         ["u3", "c", "", "2024-03-15 13:30:00 UTC"],
         ["u4", "d", "", "03/15/2024"],
         ["u5", "e", "", "2024-10-03 13:59:39.598 UTC"]])).successful = 3 ∧
      (send_events (fun _ => true) (REQUIRED_COLUMNS ::
        [["u1", "a", "", "03/15/2024 13:30"],
         ["u2", "b", "", "bad"],
         ["u3", "c", "", "2024-03-15 13:30:00 UTC"],
         ["u4", "d", "", "03/15/2024"],
         ["u5", "e", "", "2024-10-03 13:59:39.598 UTC"]])).failed = 2 ∧
      (send_events (fun _ => true) (REQUIRED_COLUMNS ::
        [["u1", "a", "", "03/15/2024 13:30"],
         ["u2", "b", "", "bad"],
         ["u3", "c", "", "2024-03-15 13:30:00 UTC"],
         ["u4", "d", "", "03/15/2024"],
         ["u5", "e", "", "2024-10-03 13:59:39.598 UTC"]])).status = 207 := by
  have h := c3_dispatch_accounting (fun _ => true)
    [["u1", "a", "", "03/15/2024 13:30"],
     ["u2", "b", "", "bad"],
     ["u3", "c", "", "2024-03-15 13:30:00 UTC"],
     ["u4", "d", "", "03/15/2024"],
     ["u5", "e", "", "2024-10-03 13:59:39.598 UTC"]]
    5 2 (by decide) (by decide) (by decide)
  exact ⟨h.1, h.2.1, h.2.2.2⟩

/-- C8: if two timestamp strings are each accepted by one of the supported
formats and denote the same wall-clock value (taken as UTC by both the
`localize` and the `replace` branch — there is no conversion, only
labelling), normalization maps both to the same epoch-millisecond
instant. -/
theorem c8_format_agreement (p q : List Char → Option WallClock)
    (hp : p ∈ supportedFormats) (hq : q ∈ supportedFormats)
    (s1 s2 : String) (wc : WallClock)
    (h1 : p s1.data = some wc) (h2 : q s2.data = some wc) :
    normalizeTimestamp s1 = some (epochMs wc) ∧
      normalizeTimestamp s2 = some (epochMs wc) ∧
      normalizeTimestamp s1 = normalizeTimestamp s2 := by
  have a1 := anyFormat_normalize hp h1
  have a2 := anyFormat_normalize hq h2
  exact ⟨a1, a2, by rw [a1, a2]⟩

/-- C8, witness: `"03/15/2024 13:30"` (first format) and
`"2024-03-15 13:30:00 UTC"` (third format) denote the same wall clock and
normalize to the same instant. -/
theorem c8_witness :
    normalizeTimestamp "03/15/2024 13:30" = some (epochMs ⟨2024, 3, 15, 13, 30, 0, 0⟩) ∧
      normalizeTimestamp "2024-03-15 13:30:00 UTC"
        = some (epochMs ⟨2024, 3, 15, 13, 30, 0, 0⟩) ∧
      normalizeTimestamp "03/15/2024 13:30"
        = normalizeTimestamp "2024-03-15 13:30:00 UTC" :=
  c8_format_agreement parseFmt1 parseFmt3
    (List.mem_cons_self _ _)
    (List.mem_cons_of_mem _ (List.mem_cons_of_mem _ (List.mem_cons_self _ _)))
    "03/15/2024 13:30" "2024-03-15 13:30:00 UTC" ⟨2024, 3, 15, 13, 30, 0, 0⟩
    (by decide) (by decide)

/-- C9: the `/send-events` handler never writes the dataset store — after a
dispatch the store equals what it was at the start, so an immediately
repeated dispatch sees the same rows and produces the same outcome. -/
theorem c9_dispatch_frame (track : AmpEvent → Bool) (store : List (List String)) :
    (send_events_route track store).1 = store ∧
      send_events_route track (send_events_route track store).1
        = send_events_route track store :=
  ⟨rfl, rfl⟩

/-- C10: for a validated dataset of `n` data rows the preview fragment is
built from exactly the first `min 5 n` rows in dataset order, while the
`Total Rows` figure spliced into the page is `n` itself. -/
theorem c10_preview (fn : String) (hdr : List String) (rows : List (List String)) :
    generate_html_response fn (hdr :: rows) = pageHtml fn hdr (rows.take 5) rows.length ∧
      (rows.take 5).length = min 5 rows.length ∧
      ∀ i, i < (rows.take 5).length → (rows.take 5).getD i [] = rows.getD i [] := by
  refine ⟨rfl, List.length_take 5 rows, ?_⟩
  intro i hi
  have hi5 : i < 5 := by
    rw [List.length_take] at hi
    omega
  simp [List.getD_eq_getElem?_getD, List.getElem?_take_of_lt hi5]

/-- C10, witness. -/
theorem c10_witness :
    generate_html_response "f.csv" (["h"] :: [["r1"], ["r2"]])
        = pageHtml "f.csv" ["h"] ([["r1"], ["r2"]].take 5) 2 ∧
      ([["r1"], ["r2"]].take 5).getD 0 [] = [["r1"], ["r2"]].getD 0 [] :=
  ⟨(c10_preview "f.csv" ["h"] [["r1"], ["r2"]]).1,
   (c10_preview "f.csv" ["h"] [["r1"], ["r2"]]).2.2 0 (by decide)⟩

end IncidentUploader
